import Mathlib

/-!
Shallow embedding of the portfolio backend (src/main.py, src/schemas.py):
the GET /api/projects handler with its fallback dataset, the POST
/api/contact handler with the inner Contact schema validation, and the
GET /test diagnostic handler.  The storage collaborator (the `database`
module) is external to the repository and is modelled as an explicit
outcome parameter: absent (import fails), erroring, or returning data.
-/

namespace Portfolio

/-- A raw document fetched from the storage collaborator's "project"
collection, as read by get_projects via d.get(...): every field the
handler looks at may be absent. -/
structure RawDoc where
  title : Option String
  summary : Option String
  tech : Option (List String)
  thumbnail : Option String
  live_url : Option String
  github_url : Option String
  case_study_url : Option String
deriving Repr, DecidableEq

/-- Response model ProjectOut (src/main.py lines 18-25). -/
structure ProjectOut where
  title : String
  summary : String
  tech : List String
  thumbnail : Option String
  live_url : Option String
  github_url : Option String
  case_study_url : Option String
deriving Repr, DecidableEq

/-- Element-wise mapping of a raw storage document to ProjectOut
(src/main.py lines 88-96): title defaults to "Untitled", summary to "",
tech to the empty list, the remaining fields stay optional. -/
def projectOfDoc (d : RawDoc) : ProjectOut :=
  { title := d.title.getD "Untitled"
    summary := d.summary.getD ""
    tech := d.tech.getD []
    thumbnail := d.thumbnail
    live_url := d.live_url
    github_url := d.github_url
    case_study_url := d.case_study_url }

/-- Outcome of the try-block of get_projects up to the fetch: the
database module may fail to import (collaborator absent), the fetch
get_documents("project", limit=12) may raise, or it returns a list of
documents. -/
inductive FetchResult where
  | absent
  | fetchError
  | docs (ds : List RawDoc)
deriving Repr, DecidableEq

/-- The curated fallback dataset returned by get_projects when the
database is unavailable, errors, or holds no project documents
(src/main.py lines 103-127). -/
def fallbackProjects : List ProjectOut :=
  [ { title := "RemoveQ — Media Optimization Layer"
      summary := "Reduced bandwidth by 60% and improved Core Web Vitals across stores."
      tech := ["AWS", "CloudFront", "Lambda@Edge", "Shopify"]
      thumbnail := some "/projects/removeq.jpg"
      live_url := some "https://example.com/removeq"
      github_url := none
      case_study_url := none },
    { title := "Shopify CI/CD — Zero-Downtime Deploys"
      summary := "Automated theme deployments with rollbacks; eliminated manual errors."
      tech := ["GitHub Actions", "Shopify CLI", "Docker"]
      thumbnail := some "/projects/shopify-cicd.jpg"
      live_url := none
      github_url := some "https://github.com/naveenrao/shopify-cicd"
      case_study_url := none },
    { title := "Next.js SaaS Starter"
      summary := "High-performance SaaS foundation with auth, billing, and analytics."
      tech := ["Next.js", "Supabase", "Stripe"]
      thumbnail := some "/projects/saas-starter.jpg"
      live_url := some "https://example.com/saas-starter"
      github_url := some "https://github.com/naveenrao/saas-starter"
      case_study_url := none } ]

/-- The GET /api/projects handler (src/main.py lines 77-127): on a
successful fetch the documents are mapped to ProjectOut and returned if
non-empty; an import failure, a fetch error, or an empty result all fall
through to the fallback dataset. -/
def get_projects (r : FetchResult) : List ProjectOut :=
  match r with
  | FetchResult.docs ds =>
      let out := ds.map projectOfDoc
      if out.isEmpty then fallbackProjects else out
  | FetchResult.absent => fallbackProjects
  | FetchResult.fetchError => fallbackProjects

/-- The route-level request model ContactIn (src/main.py lines 27-30):
three plain string fields, no constraints. -/
structure ContactIn where
  name : String
  email : String
  message : String
deriving Repr, DecidableEq

/-- Modelled from the spec: EmailStr of the Contact schema
(src/schemas.py line 55) delegates to an external email-syntax
validator that is not part of this repository; the spec only says the
email "must be a syntactically valid email address", so the validator
is kept abstract and passed in as a boolean predicate emailOk. -/
def contactValid (emailOk : String → Bool) (p : ContactIn) : Bool :=
  2 ≤ p.name.length && emailOk p.email
    && 10 ≤ p.message.length && p.message.length ≤ 2000

/-- Outcome of the storage collaborator for the contact write: the
database module may fail to import, create_document may raise, or it
returns a generated identifier. -/
inductive WriteOutcome where
  | absent
  | writeError
  | ok (id : String)
deriving Repr, DecidableEq

/-- The JSON body of a POST /api/contact response. -/
structure ContactResponse where
  success : Bool
  id : Option String
  note : Option String
deriving Repr, DecidableEq

/-- The note string of the soft-success fallback response
(src/main.py line 139). -/
def fallbackNote : String :=
  "Stored in-memory fallback not enabled. DB may be disabled in this environment."

/-- Result of one run of the POST /api/contact handler body: the
response plus whether create_document was actually invoked. -/
structure ContactStep where
  resp : ContactResponse
  attemptedWrite : Bool
deriving Repr, DecidableEq

/-- The POST /api/contact handler body (src/main.py lines 129-139).
Inside the try block the constrained schemas.Contact is constructed
first; if the payload violates its constraints that construction
raises, create_document is never called, and the except branch returns
the soft-success fallback.  Any import failure or write error lands in
the same except branch. -/
def post_contact (emailOk : String → Bool) (p : ContactIn)
    (w : WriteOutcome) : ContactStep :=
  match w with
  | WriteOutcome.absent =>
      { resp := { success := true, id := none, note := some fallbackNote }
        attemptedWrite := false }
  | WriteOutcome.writeError =>
      if contactValid emailOk p then
        { resp := { success := true, id := none, note := some fallbackNote }
          attemptedWrite := true }
      else
        { resp := { success := true, id := none, note := some fallbackNote }
          attemptedWrite := false }
  | WriteOutcome.ok i =>
      if contactValid emailOk p then
        { resp := { success := true, id := some i, note := none }
          attemptedWrite := true }
      else
        { resp := { success := true, id := none, note := some fallbackNote }
          attemptedWrite := false }

/-- How the framework parses an inbound POST /api/contact body against
ContactIn: either all three fields are present as strings, or the body
is malformed (a field missing or of the wrong type). -/
inductive BodyParse where
  | ok (p : ContactIn)
  | malformed
deriving Repr, DecidableEq

/-- The full POST /api/contact route: a malformed body is rejected by
the framework with a 422 client error before the handler runs; any body
matching ContactIn reaches the handler and the route answers 200 with
the handler's response. -/
def contact_route (emailOk : String → Bool) (b : BodyParse)
    (w : WriteOutcome) : Nat × Option ContactStep :=
  match b with
  | BodyParse.malformed => (422, none)
  | BodyParse.ok p => (200, some (post_contact emailOk p w))

/-- State of the storage collaborator as observed by GET /test: the
database module may fail to import (ImportError), the import may raise
some other exception with a message, db may be None, the handle may
raise on list_collection_names, or it may return collection names.  The
optional name is db.name when the handle has that attribute. -/
inductive DbState where
  | absent
  | importError (msg : String)
  | uninitialized
  | listError (name : Option String) (msg : String)
  | working (name : Option String) (cols : List String)
deriving Repr, DecidableEq

/-- The process environment as read by GET /test: the DATABASE_URL and
DATABASE_NAME variables, each either absent or present with a value. -/
structure Env where
  dbUrl : Option String
  dbName : Option String
deriving Repr, DecidableEq

/-- Python truthiness of os.getenv(...): the variable is present and
its value is a non-empty string. -/
def getenvTruthy (v : Option String) : Bool :=
  match v with
  | none => false
  | some s => !s.isEmpty

/-- Python string slicing s[:n]: the first n code points. -/
def strTake (s : String) (n : Nat) : String :=
  String.mk (s.data.take n)

/-- The JSON body of a GET /test response. -/
structure TestResponse where
  backend : String
  database : String
  database_url : String
  database_name : String
  connection_status : String
  collections : List String
deriving Repr, DecidableEq

/-- The GET /test handler (src/main.py lines 40-75), returning the HTTP
status and the body.  Every storage interaction is inside try/except,
so the handler always reaches the final return; the database_url and
database_name fields are overwritten unconditionally at lines 72-73
from the truthiness of the two environment variables, discarding the
values set earlier in the try block. -/
def test_database (st : DbState) (env : Env) : Nat × TestResponse :=
  let database :=
    match st with
    | DbState.absent => "❌ Database module not found (run enable-database first)"
    | DbState.importError m => "❌ Error: " ++ strTake m 50
    | DbState.uninitialized => "⚠️  Available but not initialized"
    | DbState.listError _ m => "⚠️  Connected but Error: " ++ strTake m 50
    | DbState.working _ _ => "✅ Connected & Working"
  let connection_status :=
    match st with
    | DbState.listError _ _ => "Connected"
    | DbState.working _ _ => "Connected"
    | _ => "Not Connected"
  let collections :=
    match st with
    | DbState.working _ cs => cs.take 10
    | _ => []
  (200,
    { backend := "✅ Running"
      database := database
      database_url := if getenvTruthy env.dbUrl then "✅ Set" else "❌ Not Set"
      database_name := if getenvTruthy env.dbName then "✅ Set" else "❌ Not Set"
      connection_status := connection_status
      collections := collections })

/-- A sample concrete instantiation of the abstract email validator,
used in closed witness statements: the string contains an @ sign. -/
def sampleEmailOk (s : String) : Bool := s.data.contains '@'

/-- A concrete POST /api/contact payload whose name has length 1,
violating the Contact minimum name length of 2 while the other two
fields satisfy their constraints. -/
def shortNamePayload : ContactIn :=
  { name := "A", email := "a@b.com", message := "Hello there, this is long enough." }

/-- C4: when the fetch from the "project" collection returns zero
documents, or raises, or the collaborator is absent, GET /api/projects
returns the same fixed fallback sequence of exactly 3 ProjectOut
records (each of which has non-absent title and summary strings, a
string-list tech field, and optional remaining fields by the ProjectOut
type); all three trigger conditions yield identical output. -/
theorem get_projects_fallback_triple :
    get_projects FetchResult.absent = fallbackProjects
    ∧ get_projects FetchResult.fetchError = fallbackProjects
    ∧ get_projects (FetchResult.docs []) = fallbackProjects
    ∧ fallbackProjects.length = 3 :=
  ⟨rfl, rfl, rfl, rfl⟩

/-- C5: when the fetch succeeds with at least one document, GET
/api/projects returns exactly the fetched documents in storage order,
mapped element-wise by projectOfDoc (title defaulting to "Untitled",
summary to "", tech to [], the remaining fields staying optional), and
when the collaborator honours the limit of 12 the result has at most 12
elements. -/
theorem get_projects_maps_docs (ds : List RawDoc)
    (hne : ds ≠ []) (hlim : ds.length ≤ 12) :
    get_projects (FetchResult.docs ds) = ds.map projectOfDoc
    ∧ (get_projects (FetchResult.docs ds)).length ≤ 12 := by
  have h : (ds.map projectOfDoc).isEmpty = false := by
    cases ds with
    | nil => exact absurd rfl hne
    | cons a as => rfl
  have he : get_projects (FetchResult.docs ds) = ds.map projectOfDoc := by
    simp [get_projects, h]
  refine ⟨he, ?_⟩
  rw [he, List.length_map]
  exact hlim

/-- Witness for C5 at a one-element fetch result consisting of an
entirely empty raw document: every defaulted field appears. -/
theorem get_projects_maps_docs_witness :
    get_projects (FetchResult.docs
        [{ title := none, summary := none, tech := none, thumbnail := none,
           live_url := none, github_url := none, case_study_url := none }])
      = [{ title := "Untitled", summary := "", tech := [], thumbnail := none,
           live_url := none, github_url := none, case_study_url := none }] :=
  ((get_projects_maps_docs _ (by decide) (by decide)).1).trans (by decide)

/-- C10: for every storage-collaborator state, the list returned by GET
/api/projects is non-empty. -/
theorem get_projects_nonempty (r : FetchResult) :
    get_projects r ≠ [] := by
  cases r with
  | docs ds =>
      cases ds with
      | nil => decide
      | cons a as => simp [get_projects]
  | absent => decide
  | fetchError => decide

/-- C1 counterexample: a payload with name of length 1 (violating the
Contact minimum name length) is not rejected with a client-error
status: even with a fully working storage collaborator the route
answers HTTP 200, the handler body runs, and it produces the
soft-success response; the status is not in the 4xx range. -/
theorem contact_invalid_not_rejected :
    (contact_route sampleEmailOk (BodyParse.ok shortNamePayload)
        (WriteOutcome.ok "generated-id")).1 = 200
    ∧ ¬ (400 ≤ (contact_route sampleEmailOk (BodyParse.ok shortNamePayload)
          (WriteOutcome.ok "generated-id")).1
        ∧ (contact_route sampleEmailOk (BodyParse.ok shortNamePayload)
          (WriteOutcome.ok "generated-id")).1 < 500)
    ∧ (contact_route sampleEmailOk (BodyParse.ok shortNamePayload)
        (WriteOutcome.ok "generated-id")).2
      = some { resp := { success := true, id := none, note := some fallbackNote }
               attemptedWrite := false } := by
  refine ⟨rfl, ?_, ?_⟩
  · decide
  · decide

/-- C1 amended: a body whose three fields are present as strings but
which violates the Contact constraints is not rejected at the boundary
(ContactIn imposes no constraints); for every storage-collaborator
state the route answers 200, the handler runs and returns success =
true, id = null and the explanatory note, and no persistence is
attempted, because the inner Contact construction raises before
create_document is called. -/
theorem contact_invalid_soft_success (emailOk : String → Bool)
    (p : ContactIn) (w : WriteOutcome)
    (h : contactValid emailOk p = false) :
    contact_route emailOk (BodyParse.ok p) w
      = (200, some { resp := { success := true, id := none, note := some fallbackNote }
                     attemptedWrite := false }) := by
  cases w <;> simp [contact_route, post_contact, h]

/-- Witness for the amended C1 at the short-name payload with the
collaborator absent. -/
theorem contact_invalid_soft_success_witness :
    contactValid sampleEmailOk shortNamePayload = false
    ∧ contact_route sampleEmailOk (BodyParse.ok shortNamePayload) WriteOutcome.absent
      = (200, some { resp := { success := true, id := none, note := some fallbackNote }
                     attemptedWrite := false }) :=
  ⟨by decide, contact_invalid_soft_success sampleEmailOk shortNamePayload
      WriteOutcome.absent (by decide)⟩

/-- C2: for every valid Contact payload, when the storage collaborator
is absent or the persistence step raises, the handler returns success =
true, id = null, and the note, which is a non-empty string. -/
theorem post_contact_degraded_soft_success (emailOk : String → Bool)
    (p : ContactIn) (h : contactValid emailOk p = true) :
    (post_contact emailOk p WriteOutcome.absent).resp
      = { success := true, id := none, note := some fallbackNote }
    ∧ (post_contact emailOk p WriteOutcome.writeError).resp
      = { success := true, id := none, note := some fallbackNote }
    ∧ 0 < fallbackNote.length := by
  refine ⟨rfl, ?_, by decide⟩
  simp [post_contact, h]

/-- Witness for C2 at a concrete valid payload with the collaborator
absent. -/
theorem post_contact_degraded_soft_success_witness :
    contactValid sampleEmailOk
        { name := "Al", email := "a@b.com", message := "Hello there, this is long enough." }
      = true
    ∧ (post_contact sampleEmailOk
        { name := "Al", email := "a@b.com", message := "Hello there, this is long enough." }
        WriteOutcome.absent).resp
      = { success := true, id := none, note := some fallbackNote } :=
  ⟨by decide, (post_contact_degraded_soft_success sampleEmailOk
      { name := "Al", email := "a@b.com", message := "Hello there, this is long enough." }
      (by decide)).1⟩

/-- C3: for every valid Contact payload, when the storage collaborator
accepts the write and returns a generated identifier, the handler
responds with success = true and id equal (non-null) to that
identifier. -/
theorem post_contact_write_ok_returns_id (emailOk : String → Bool)
    (p : ContactIn) (i : String) (h : contactValid emailOk p = true) :
    (post_contact emailOk p (WriteOutcome.ok i)).resp
      = { success := true, id := some i, note := none }
    ∧ (post_contact emailOk p (WriteOutcome.ok i)).resp.id ≠ none := by
  have he : (post_contact emailOk p (WriteOutcome.ok i)).resp
      = { success := true, id := some i, note := none } := by
    simp [post_contact, h]
  exact ⟨he, by rw [he]; simp⟩

/-- Witness for C3 at a concrete valid payload and a working
collaborator returning a concrete identifier. -/
theorem post_contact_write_ok_returns_id_witness :
    contactValid sampleEmailOk
        { name := "Al", email := "a@b.com", message := "Hello there, this is long enough." }
      = true
    ∧ (post_contact sampleEmailOk
        { name := "Al", email := "a@b.com", message := "Hello there, this is long enough." }
        (WriteOutcome.ok "65f0c0ffee")).resp
      = { success := true, id := some "65f0c0ffee", note := none } :=
  ⟨by decide, (post_contact_write_ok_returns_id sampleEmailOk
      { name := "Al", email := "a@b.com", message := "Hello there, this is long enough." }
      "65f0c0ffee" (by decide)).1⟩

/-- C9: for every body whose three fields are present as strings,
including ones violating the Contact constraints, and every
storage-collaborator state, the handler returns success = true and the
route answers HTTP 200 — never success = false, never an error
status. -/
theorem post_contact_always_success (emailOk : String → Bool)
    (p : ContactIn) (w : WriteOutcome) :
    (post_contact emailOk p w).resp.success = true
    ∧ (contact_route emailOk (BodyParse.ok p) w).1 = 200 := by
  refine ⟨?_, rfl⟩
  cases w with
  | absent => rfl
  | writeError => by_cases h : contactValid emailOk p <;> simp [post_contact, h]
  | ok i => by_cases h : contactValid emailOk p <;> simp [post_contact, h]

/-- C6: for every storage-collaborator state and every environment,
GET /test returns HTTP status 200 — never an error status; failure
information only varies the body. -/
theorem test_database_always_http_success (st : DbState) (env : Env) :
    (test_database st env).1 = 200 := rfl

/-- C7: with an initialized handle, GET /test reports at most 10 of the
enumerated collection names (the first 10) and marks the database
status connected-and-working on success; if enumeration raises, the
reported message embeds the error text truncated to at most 50
characters while connection_status still reports "Connected". -/
theorem test_database_initialized_reporting (env : Env)
    (nm : Option String) (cs : List String) (m : String) :
    (test_database (DbState.working nm cs) env).2.collections = cs.take 10
    ∧ (test_database (DbState.working nm cs) env).2.collections.length ≤ 10
    ∧ (test_database (DbState.working nm cs) env).2.database = "✅ Connected & Working"
    ∧ (test_database (DbState.listError nm m) env).2.database
        = "⚠️  Connected but Error: " ++ strTake m 50
    ∧ (strTake m 50).length ≤ 50
    ∧ (test_database (DbState.listError nm m) env).2.connection_status = "Connected" := by
  refine ⟨rfl, ?_, rfl, rfl, ?_, rfl⟩
  · show (cs.take 10).length ≤ 10
    rw [List.length_take]
    exact min_le_left _ _
  · show (m.data.take 50).length ≤ 50
    rw [List.length_take]
    exact min_le_left _ _

/-- C8 counterexample: two environments that agree on the presence of
DATABASE_URL (present in both) and DATABASE_NAME (absent in both), with
identical collaborator state, produce different database_url fields,
because the code tests Python truthiness of the value: a present but
empty DATABASE_URL reports "❌ Not Set". -/
theorem test_database_env_value_dependence :
    (test_database DbState.absent { dbUrl := some "", dbName := none }).2.database_url
      ≠ (test_database DbState.absent
          { dbUrl := some "mongodb://localhost", dbName := none }).2.database_url := by
  decide

/-- C8 amended: the database_url and database_name fields depend only
on whether DATABASE_URL and DATABASE_NAME are present with a non-empty
value (Python truthiness), not otherwise on their values: two
executions agreeing on that, with identical collaborator state, yield
equal fields, and each field is always one of the two fixed strings
"✅ Set" and "❌ Not Set". -/
theorem test_database_env_presence_nonempty (st : DbState) (e1 e2 : Env)
    (hu : getenvTruthy e1.dbUrl = getenvTruthy e2.dbUrl)
    (hn : getenvTruthy e1.dbName = getenvTruthy e2.dbName) :
    (test_database st e1).2.database_url = (test_database st e2).2.database_url
    ∧ (test_database st e1).2.database_name = (test_database st e2).2.database_name
    ∧ ((test_database st e1).2.database_url = "✅ Set"
        ∨ (test_database st e1).2.database_url = "❌ Not Set")
    ∧ ((test_database st e1).2.database_name = "✅ Set"
        ∨ (test_database st e1).2.database_name = "❌ Not Set") := by
  have pu : ∀ e : Env, (test_database st e).2.database_url
      = if getenvTruthy e.dbUrl then "✅ Set" else "❌ Not Set" := fun e => rfl
  have pn : ∀ e : Env, (test_database st e).2.database_name
      = if getenvTruthy e.dbName then "✅ Set" else "❌ Not Set" := fun e => rfl
  refine ⟨?_, ?_, ?_, ?_⟩
  · rw [pu e1, pu e2, hu]
  · rw [pn e1, pn e2, hn]
  · rw [pu e1]
    cases getenvTruthy e1.dbUrl <;> simp
  · rw [pn e1]
    cases getenvTruthy e1.dbName <;> simp

/-- Witness for the amended C8: two environments whose DATABASE_URL is
present non-empty with different values, DATABASE_NAME absent in one
and present-but-empty in the other, give equal database_url fields. -/
theorem test_database_env_presence_nonempty_witness :
    getenvTruthy (some "x") = getenvTruthy (some "y")
    ∧ (test_database DbState.absent { dbUrl := some "x", dbName := none }).2.database_url
      = (test_database DbState.absent
          { dbUrl := some "y", dbName := some "" }).2.database_url :=
  ⟨by decide, (test_database_env_presence_nonempty DbState.absent
      { dbUrl := some "x", dbName := none }
      { dbUrl := some "y", dbName := some "" } (by decide) (by decide)).1⟩

end Portfolio
